import Mathlib

/-!
Verification of the bill-scraping pipeline in `src/get_bills.py` of the
vfw-congress-tracker repository.

Python strings are embedded as `List Char` so that all string operations
(`split`, `lower`, `replace`, `strip`, `join`, `sorted`) are executable,
structurally recursive Lean functions.  Python exceptions that the source can
raise and that escape an expression (`IndexError` from `parts[1]`,
`AttributeError` from `None.get(...)`) are modelled with `Except PyErr`.
The two HTTP endpoints of the Congress.gov API are modelled as oracles
(functions from the bill key to an `ApiResult`), covering a 2xx response with
parsed JSON, a non-2xx status (`raise_for_status` raising
`requests.exceptions.RequestException`), a network-level error (also a
`RequestException`), and a body that is not valid JSON (`JSONDecodeError`).
-/

/-- A Python string, embedded as its list of characters. -/
abbrev PyStr := List Char

/-- Python `s.split(sep)` for a one-character separator `sep`, keeping empty
fields, as used by `split_bill_id` in `src/get_bills.py` line 174
(`bill_id_str.split(' ')`).  `''.split(' ') = ['']`. -/
def pySplit (sep : Char) : PyStr → List PyStr
  | [] => [[]]
  | c :: cs =>
    if c = sep then [] :: pySplit sep cs
    else
      match pySplit sep cs with
      | t :: ts => (c :: t) :: ts
      | [] => [[c]]

/-- Python `s.split(sep, 1)` for a one-character separator: at most one split,
at the first occurrence, as used at `src/get_bills.py` line 121
(`full_title.split(':', 1)`). -/
def pySplitOnce (sep : Char) : PyStr → List PyStr
  | [] => [[]]
  | c :: cs =>
    if c = sep then [[], cs]
    else
      match pySplitOnce sep cs with
      | t :: ts => (c :: t) :: ts
      | [] => [[c]]

/-- Python `s.lower()` (the source only ever lower-cases ASCII bill-type
letters), `src/get_bills.py` line 183. -/
def pyLower (s : PyStr) : PyStr := s.map Char.toLower

/-- Python `s.strip()`: remove leading and trailing whitespace. -/
def pyStrip (s : PyStr) : PyStr :=
  ((s.dropWhile Char.isWhitespace).reverse.dropWhile Char.isWhitespace).reverse

/-- Fuel-indexed worker for `pyRemoveAll`; the fuel bounds the number of
characters still to be scanned so the recursion is structural. -/
def pyRemoveAllFuel (pat : PyStr) : Nat → PyStr → PyStr
  | _, [] => []
  | 0, s => s
  | fuel + 1, c :: cs =>
    if pat.isPrefixOf (c :: cs) && !pat.isEmpty then
      pyRemoveAllFuel pat fuel ((c :: cs).drop pat.length)
    else c :: pyRemoveAllFuel pat fuel cs

/-- Python `s.replace(pat, '')`: delete every occurrence of `pat`, scanning
left to right, non-overlapping.  All three `replace` calls in the source
(`'.'` at line 183, `'We '` at line 134, the session label at line 127) use
the empty replacement string.  An empty `pat` leaves `s` unchanged, exactly as
`s.replace('', '')` does in Python. -/
def pyRemoveAll (pat s : PyStr) : PyStr := pyRemoveAllFuel pat s.length s

/-- The Python exceptions that can escape an expression of the source. -/
inductive PyErr where
  | indexError
  | attributeError
deriving DecidableEq, Repr

/-- A `<span>` element as the parser uses it: its stripped text
(`get_text(strip=True)`) and its optional `title` attribute
(`status_span.get('title', 'N/A')`). -/
structure SpanEl where
  text : PyStr
  titleAttr : Option PyStr
deriving DecidableEq, Repr

/-- A `<td>` cell as the parser uses it: the stripped text of its first `<a>`
descendant if any (`cells[i].find('a')`), and its first `<span>` descendant if
any (`cells[i].find('span')`). -/
structure Cell where
  a : Option PyStr
  span : Option SpanEl
deriving DecidableEq, Repr

/-- A `<tr>` table row: its list of `<td>` cells (`row.find_all('td')`). -/
structure Row where
  cells : List Cell
deriving DecidableEq, Repr

/-- The `bill_data` dictionary appended to `bills` at `src/get_bills.py`
line 144.  Whenever a row is appended, all five keys have been assigned
(an exception raised earlier aborts the whole run instead). -/
structure BillData where
  bill_number : PyStr
  bill_title : PyStr
  status : PyStr
  cosponsors : PyStr
  url : Option PyStr
deriving DecidableEq, Repr

/-- Outcome of one HTTP GET against the Congress.gov API.  `ok` is a 2xx
response whose body parsed as JSON; the three failure cases are exactly the
ones the `except` clauses of `legislation_url` and `get_cosponsors` catch. -/
inductive ApiResult (α : Type) where
  | ok (val : α)
  | httpError
  | netError
  | badJson
deriving DecidableEq, Repr

/-- The JSON body of a 2xx `/cosponsors` response, as read by
`get_states_from_json`: the optional top-level `cosponsors` list, each entry
reduced to its optional `state` field (the only field the source reads). -/
structure CosJson where
  cosponsors : Option (List (Option PyStr))
deriving DecidableEq, Repr

/-- The JSON body of a 2xx bill-resource response, as read by
`legislation_url`: `bill` is the optional top-level `bill` object, itself
reduced to its optional `legislationUrl` field. -/
structure BillJson where
  bill : Option (Option PyStr)
deriving DecidableEq, Repr

/-- Oracle for `GET /v3/bill/119/{type}/{number}/cosponsors`. -/
abbrev CosApi := PyStr → PyStr → ApiResult CosJson

/-- Oracle for `GET /v3/bill/119/{type}/{number}`. -/
abbrev UrlApi := PyStr → PyStr → ApiResult BillJson

/-- The source's module-level debug flag, `src/get_bills.py` line 16. -/
def DEBUG : Bool := true

/-- The `split_bill_id` function, `src/get_bills.py` lines 162-185:
`parts = bill_id_str.split(' ')`, `parts[0].lower().replace('.', '')` and
`parts[1]`.  Accessing `parts[1]` raises `IndexError` when the split produced
fewer than two parts; nothing in `split_bill_id` catches it. -/
def split_bill_id (s : PyStr) : Except PyErr (PyStr × PyStr) :=
  match pySplit ' ' s with
  | p0 :: p1 :: _ => .ok (pyRemoveAll ['.'] (pyLower p0), p1)
  | _ => .error .indexError

/-- The `get_cosponsors` function, `src/get_bills.py` lines 235-282: returns
the parsed JSON on a 2xx response and `None` on a `RequestException`
(non-2xx or network failure) or a `JSONDecodeError`. -/
def get_cosponsors (capi : CosApi) (bill_type bill_number : PyStr) :
    Option CosJson :=
  match capi bill_type bill_number with
  | .ok j => some j
  | .httpError => none
  | .netError => none
  | .badJson => none

/-- The `legislation_url` function, `src/get_bills.py` lines 187-232: on a
2xx response it evaluates `response.json().get('bill').get('legislationUrl')`;
when the body has no `bill` key, `.get('bill')` is `None` and the second
`.get` raises an uncaught `AttributeError`.  On a `RequestException` or
`JSONDecodeError` it returns `None`. -/
def legislation_url (uapi : UrlApi) (bill_type bill_number : PyStr) :
    Except PyErr (Option PyStr) :=
  match uapi bill_type bill_number with
  | .ok j =>
    match j.bill with
    | none => .error .attributeError
    | some u => .ok u
  | .httpError => .ok none
  | .netError => .ok none
  | .badJson => .ok none

/-- The list comprehension of `get_states_from_json`, line 295: the `state`
of each cosponsor entry whose `state` is truthy (present and non-empty). -/
def states_of (j : CosJson) : List PyStr :=
  (j.cosponsors.getD []).filterMap fun st =>
    match st with
    | some s => if s = [] then none else some s
    | none => none

/-- The `unique_states` local of `get_states_from_json`, line 296:
`sorted(list(set(states)))`, i.e. the distinct states in increasing
lexicographic order. -/
def unique_states (j : CosJson) : List PyStr :=
  List.insertionSort (· ≤ ·) (states_of j).dedup

/-- The `get_states_from_json` function, `src/get_bills.py` lines 284-297.
Its argument is the value returned by `get_cosponsors`; when that value is
`None`, `json_data.get('cosponsors', [])` raises an uncaught
`AttributeError`.  Otherwise it returns `', '.join(unique_states)`. -/
def get_states_from_json : Option CosJson → Except PyErr PyStr
  | none => .error .attributeError
  | some j => .ok (List.intercalate (", ".data) (unique_states j))

/-- Lines 121-131 of `src/get_bills.py`: split the link text once on the
first colon; with a colon, the stripped left part is the raw bill number and
the stripped right part — with the session span's text removed by exact
substring elimination, then stripped again — is the title; with no colon the
sentinel `N/A` is the raw bill number and the whole link text the title. -/
def parse_number_title (full_title : PyStr) (session_span : Option SpanEl) :
    PyStr × PyStr :=
  match pySplitOnce ':' full_title with
  | p0 :: p1 :: _ =>
    let title := pyStrip p1
    let title :=
      match session_span with
      | some ss => pyStrip (pyRemoveAll ss.text title)
      | none => title
    (pyStrip p0, title)
  | _ => ("N/A".data, full_title)

/-- The row-qualification test of `src/get_bills.py` lines 114-118: at least
two cells, an `<a>` in the first cell and a `<span>` in the second. -/
def qualifies (r : Row) : Bool :=
  match r.cells with
  | c0 :: c1 :: _ => c0.a.isSome && c1.span.isSome
  | _ => false

/-- The body of the `for` loop of `scrape_vfw_bills`, `src/get_bills.py`
lines 111-144, for one row.  `.ok none` means `bill_data` stayed empty and the
row is skipped; `.ok (some b)` means `b` is appended to `bills`; `.error e`
is an exception escaping the loop body (from `split_bill_id`,
`get_states_from_json` or `legislation_url`). -/
def process_row (capi : CosApi) (uapi : UrlApi) (row : Row) :
    Except PyErr (Option BillData) :=
  match row.cells with
  | c0 :: c1 :: _ =>
    match c0.a, c1.span with
    | some full_title, some status_span =>
      let bn_bt : PyStr × PyStr := parse_number_title full_title c0.span
      let status0 := (status_span.titleAttr).getD ("N/A".data)
      let status := pyStrip (pyRemoveAll ("We ".data) status0)
      match split_bill_id bn_bt.1 with
      | .error e => .error e
      | .ok (bill_type, bill_number) =>
        let cos := get_cosponsors capi bill_type bill_number
        match get_states_from_json cos with
        | .error e => .error e
        | .ok states =>
          match legislation_url uapi bill_type bill_number with
          | .error e => .error e
          | .ok url =>
            .ok (some ⟨bn_bt.1, bn_bt.2, status, states, url⟩)
    | _, _ => .ok none
  | _ => .ok none

/-- The `for` loop of `scrape_vfw_bills` over the table rows together with the
enclosing `try`/`except` of lines 65-157: an exception anywhere in the loop is
caught by the run-level handler, which returns `None`; otherwise the appended
rows are returned in row order. -/
def scrape_rows (capi : CosApi) (uapi : UrlApi) : List Row → Option (List BillData)
  | [] => some []
  | r :: rs =>
    match process_row capi uapi r with
    | .error _ => none
    | .ok none => scrape_rows capi uapi rs
    | .ok (some b) => (scrape_rows capi uapi rs).map (b :: ·)

/-- The same loop with its `if DEBUG: print(...)` narration made explicit:
the first component is the scrape result, the second the list of console
lines the loop emits for the given value of the debug flag
(`src/get_bills.py` lines 108-109 and 145-148). -/
def scrape_rows_log (debug : Bool) (capi : CosApi) (uapi : UrlApi) :
    List Row → Nat → Option (List BillData) × List String
  | [], _ => (some [], [])
  | r :: rs, i =>
    let banner := if debug then ["--- Parsing Row " ++ toString (i + 1) ++ " ---"] else []
    match process_row capi uapi r with
    | .error _ => (none, banner)
    | .ok none =>
      let rest := scrape_rows_log debug capi uapi rs (i + 1)
      (rest.1, banner ++ rest.2)
    | .ok (some b) =>
      let extracted := if debug then ["Extracted Data:"] else []
      let rest := scrape_rows_log debug capi uapi rs (i + 1)
      (rest.1.map (b :: ·), banner ++ extracted ++ rest.2)

/-- The CSV header, `src/get_bills.py` line 306. -/
def fieldnames : List PyStr :=
  ["bill_number".data, "bill_title".data, "status".data, "cosponsors".data, "url".data]

/-- One CSV data row as `csv.DictWriter` emits it for a `bill_data` dict, in
`fieldnames` order; a `None` value is written as the empty field. -/
def csv_row (b : BillData) : List PyStr :=
  [b.bill_number, b.bill_title, b.status, b.cosponsors, b.url.getD []]

/-- The `__main__` persistence step, `src/get_bills.py` lines 304-317:
given the value of `scrape_vfw_bills`, `if vfw_bills:` writes the file (header
row first, then one row per bill, replacing any previous file) only when the
list is non-`None` and non-empty; otherwise no file is written at all.
`some rows` is the full contents of the freshly written file, `none` means no
write happened. -/
def write_output : Option (List BillData) → Option (List (List PyStr))
  | none => none
  | some bills =>
    if bills.isEmpty then none
    else some (fieldnames :: bills.map csv_row)

/-- Cosponsors oracle for a run in which every cosponsor call succeeds with
the fixture body of spec section 8: two distinct states, one duplicated. -/
def okCosApi : CosApi := fun _ _ =>
  .ok ⟨some [some "CA".data, some "TX".data, some "CA".data]⟩

/-- Bill-resource oracle for a run in which every legislation-URL call
succeeds with the fixture body of spec section 8. -/
def okUrlApi : UrlApi := fun _ _ =>
  .ok ⟨some (some "https://example.test/bill/3132".data)⟩

/-- Cosponsors oracle for a run in which every cosponsor call gets a non-2xx
HTTP status. -/
def failCosApi : CosApi := fun _ _ => .httpError

/-- Bill-resource oracle for a run in which every legislation-URL call gets a
non-2xx HTTP status. -/
def failUrlApi : UrlApi := fun _ _ => .httpError

/-- The fixture row of spec section 8: link text `H.R. 3132: Example Act`,
no session span, tooltip attribute `We Support`. -/
def exampleRow : Row :=
  ⟨[⟨some ("H.R. 3132: Example Act".data), none⟩,
    ⟨none, some ⟨[], some ("We Support".data)⟩⟩]⟩

/-- The record `process_row` produces for `exampleRow` under `okCosApi` and
`okUrlApi`. -/
def exampleRec : BillData :=
  ⟨"H.R. 3132".data, "Example Act".data, "Support".data, "CA, TX".data,
    some ("https://example.test/bill/3132".data)⟩

/-- A structurally valid row whose link text has no colon, so the parser uses
the sentinel `N/A` as the raw bill number. -/
def naRow : Row :=
  ⟨[⟨some ("A bill for veterans".data), none⟩,
    ⟨none, some ⟨[], some ("We Support".data)⟩⟩]⟩

/-- A row whose tooltip attribute contains `We ` twice, only once as a
prefix. -/
def weRow : Row :=
  ⟨[⟨some ("H.R. 3132: Example Act".data), none⟩,
    ⟨none, some ⟨[], some ("We We Support".data)⟩⟩]⟩

/-- A row whose link text ends at the colon, so the parsed title is empty. -/
def emptyTitleRow : Row :=
  ⟨[⟨some ("H.R. 1:".data), none⟩,
    ⟨none, some ⟨[], some ("We Support".data)⟩⟩]⟩

/-- A row with only one cell, which the parser must skip. -/
def oneCellRow : Row := ⟨[⟨some ("H.R. 9: Title".data), none⟩]⟩

/-- A row with two cells but no link in the first, which the parser must
skip. -/
def noLinkRow : Row := ⟨[⟨none, none⟩, ⟨none, some ⟨[], some ("We Support".data)⟩⟩]⟩

/-- Helper: a row that fails the qualification test of lines 114-118 leaves
`bill_data` empty, so the loop body neither appends nor raises. -/
theorem process_row_skip (capi : CosApi) (uapi : UrlApi) (r : Row)
    (h : qualifies r = false) : process_row capi uapi r = .ok none := by
  obtain ⟨cells⟩ := r
  match cells with
  | [] => rfl
  | [c0] => rfl
  | c0 :: c1 :: rest =>
    obtain ⟨a0, s0⟩ := c0
    obtain ⟨a1, s1⟩ := c1
    cases a0 with
    | none => rfl
    | some ft =>
      cases s1 with
      | none => rfl
      | some sp => simp [qualifies] at h

/-- Helper: the debug flag changes only the second (console-log) component of
the instrumented loop; the first component is the scrape result. -/
theorem scrape_rows_log_fst (debug : Bool) (capi : CosApi) (uapi : UrlApi)
    (rows : List Row) (i : Nat) :
    (scrape_rows_log debug capi uapi rows i).1 = scrape_rows capi uapi rows := by
  induction rows generalizing i with
  | nil => rfl
  | cons r rs ih =>
    simp only [scrape_rows_log, scrape_rows]
    cases hp : process_row capi uapi r with
    | error e => rfl
    | ok ob =>
      cases ob with
      | none => exact ih (i + 1)
      | some b => simp [ih (i + 1)]

/-- C1: the spec requires that a raw bill number with fewer than two
space-separated tokens (such as the sentinel `N/A` from a colon-less link
text) make `split` fail with an error that the caller catches, still emitting
the bill's record with absent enrichment fields and aborting neither the row
nor the run.  The code instead raises an uncaught `IndexError` from
`parts[1]`; the only handler is the run-level `except` of
`scrape_vfw_bills`, which returns `None`: the row is not emitted, the whole
run is aborted, and no output file is written. -/
theorem C1_sentinel_aborts_whole_run :
    split_bill_id ("N/A".data) = .error .indexError ∧
    scrape_rows okCosApi okUrlApi [naRow] = none ∧
    write_output (scrape_rows okCosApi okUrlApi [naRow]) = none :=
  ⟨rfl, rfl, rfl⟩

/-- C2: the client functions do return an absent result on a failed call
(first conjunct), and a failed legislation-URL call indeed leaves only that
record's `url` field absent (fourth conjunct); but when the cosponsor call
fails, `get_cosponsors` returns `None` and `get_states_from_json(None)`
raises an uncaught `AttributeError`, so the run-level handler aborts the
whole scrape and no record at all is produced (second and third conjuncts),
contradicting the claim that only that bill's field is left absent. -/
theorem C2_cosponsor_failure_aborts_whole_run :
    get_cosponsors failCosApi ("hr".data) ("3132".data) = none ∧
    get_states_from_json (get_cosponsors failCosApi ("hr".data) ("3132".data)) =
      .error .attributeError ∧
    (scrape_rows failCosApi okUrlApi [exampleRow] = none ∧
      write_output (scrape_rows failCosApi okUrlApi [exampleRow]) = none) ∧
    scrape_rows okCosApi failUrlApi [exampleRow] =
      some [⟨"H.R. 3132".data, "Example Act".data, "Support".data, "CA, TX".data, none⟩] :=
  ⟨rfl, rfl, ⟨rfl, rfl⟩, rfl⟩

/-- C3: a table row with fewer than two cells, or without a link in its first
cell or a span in its second, is silently skipped: the scrape of any row list
equals the scrape of the list with all such rows removed, so no skipped row
aborts the parse and every other row still contributes its entry in row
order. -/
theorem C3_malformed_rows_skipped (capi : CosApi) (uapi : UrlApi)
    (rows : List Row) :
    scrape_rows capi uapi rows = scrape_rows capi uapi (rows.filter qualifies) := by
  induction rows with
  | nil => rfl
  | cons r rs ih =>
    by_cases hq : qualifies r
    · rw [List.filter_cons_of_pos hq]
      simp only [scrape_rows]
      cases hp : process_row capi uapi r with
      | error e => rfl
      | ok ob => cases ob <;> simp [ih]
    · rw [List.filter_cons_of_neg hq]
      have hskip := process_row_skip capi uapi r (by simpa using hq)
      simp only [scrape_rows, hskip]
      exact ih

/-- C4: for every identifier that splits into exactly two space-separated
tokens, `split_bill_id` returns the left token lower-cased with all periods
removed and the right token unchanged. -/
theorem C4_well_formed_split (s t n : PyStr) (h : pySplit ' ' s = [t, n]) :
    split_bill_id s = .ok (pyRemoveAll ['.'] (pyLower t), n) := by
  unfold split_bill_id
  rw [h]

/-- Witness for C4 at the spec's own examples: `H.R. 3132` yields
`(hr, 3132)` and `S. 649` yields `(s, 649)`. -/
theorem C4_well_formed_split_witness :
    split_bill_id ("H.R. 3132".data) = .ok ("hr".data, "3132".data) ∧
    split_bill_id ("S. 649".data) = .ok ("s".data, "649".data) :=
  ⟨C4_well_formed_split ("H.R. 3132".data) ("H.R.".data) ("3132".data) rfl,
   C4_well_formed_split ("S. 649".data) ("S.".data) ("649".data) rfl⟩

/-- C5 counterexample: the claim says everything after the first space is
returned verbatim as the number, but on `H. J. Res. 26` the code returns only
the second space-separated token `J.`, not `J. Res. 26`. -/
theorem C5_counterexample_second_token_only :
    split_bill_id ("H. J. Res. 26".data) = .ok ("h".data, "J.".data) ∧
    ("J.".data : PyStr) ≠ "J. Res. 26".data :=
  ⟨rfl, by decide⟩

/-- C5 amended: for every input with at least one space, `split_bill_id`
splits on every space and returns the first token lower-cased with periods
removed together with the second token (the text between the first and second
spaces) — not everything after the first space. -/
theorem C5_amended_second_token (s t n : PyStr) (rest : List PyStr)
    (h : pySplit ' ' s = t :: n :: rest) :
    split_bill_id s = .ok (pyRemoveAll ['.'] (pyLower t), n) := by
  unfold split_bill_id
  rw [h]

/-- Witness for the amended C5 at `H. J. Res. 26`, whose split has four
tokens. -/
theorem C5_amended_second_token_witness :
    split_bill_id ("H. J. Res. 26".data) = .ok ("h".data, "J.".data) :=
  C5_amended_second_token ("H. J. Res. 26".data) ("H.".data) ("J.".data)
    ["Res.".data, "26".data] rfl

/-- Helper: the `unique_states` list is strictly increasing, hence sorted and
duplicate-free. -/
theorem unique_states_sorted_lt (j : CosJson) :
    List.Sorted (· < ·) (unique_states j) := by
  have hsorted : List.Sorted (· ≤ ·) (unique_states j) :=
    List.sorted_insertionSort (· ≤ ·) (states_of j).dedup
  have hnodup : (unique_states j).Nodup :=
    ((List.perm_insertionSort (· ≤ ·) (states_of j).dedup).symm).nodup
      (List.nodup_dedup (states_of j))
  exact hsorted.lt_of_le hnodup

/-- C6: for every cosponsor response object, `get_states_from_json` joins the
`unique_states` list with a comma-space separator, and that list — the
truthy `state` fields, deduplicated and sorted — is strictly increasing, so
the result never contains duplicate codes and is always in lexicographic
order; on the states `CA, TX, CA, NY` it yields `CA, NY, TX`. -/
theorem C6_states_sorted_and_deduped (j : CosJson) :
    List.Sorted (· < ·) (unique_states j) ∧
    get_states_from_json (some j) =
      .ok (List.intercalate (", ".data) (unique_states j)) ∧
    get_states_from_json
        (some ⟨some [some "CA".data, some "TX".data, some "CA".data, some "NY".data]⟩) =
      .ok ("CA, NY, TX".data) :=
  ⟨unique_states_sorted_lt j, rfl, rfl⟩

/-- C7 counterexample: the claim says only the literal prefix `We ` is
stripped and the remainder of the attribute text is preserved, but on the
attribute `We We Support` the code's `replace('We ', '')` removes both
occurrences: the emitted status is `Support`, not `We Support`. -/
theorem C7_counterexample_replace_not_prefix :
    process_row okCosApi okUrlApi weRow =
      .ok (some ⟨"H.R. 3132".data, "Example Act".data, "Support".data, "CA, TX".data,
        some ("https://example.test/bill/3132".data)⟩) ∧
    ("Support".data : PyStr) ≠ "We Support".data :=
  ⟨rfl, by decide⟩

/-- C7 amended: for every qualifying row the emitted status is the tooltip
span's `title` attribute, defaulting to `N/A` when absent, with every
occurrence of the substring `We ` removed and leading and trailing whitespace
stripped (not merely a prefix strip that preserves the remainder). -/
theorem C7_amended_status (capi : CosApi) (uapi : UrlApi) (c0 c1 : Cell)
    (rest : List Cell) (sp : SpanEl) (b : BillData)
    (hspan : c1.span = some sp)
    (h : process_row capi uapi ⟨c0 :: c1 :: rest⟩ = .ok (some b)) :
    b.status = pyStrip (pyRemoveAll ("We ".data) (sp.titleAttr.getD ("N/A".data))) := by
  obtain ⟨a0, s0⟩ := c0
  cases a0 with
  | none => simp [process_row] at h
  | some ft =>
    simp only [process_row, hspan] at h
    split at h
    · simp at h
    · split at h
      · simp at h
      · split at h
        · simp at h
        · injection h with h1
          injection h1 with h2
          subst h2
          rfl

/-- Witness for the amended C7 at the fixture row, whose tooltip attribute is
`We Support` and whose emitted status is `Support`. -/
theorem C7_amended_status_witness :
    exampleRec.status =
      pyStrip (pyRemoveAll ("We ".data)
        ((⟨[], some ("We Support".data)⟩ : SpanEl).titleAttr.getD ("N/A".data))) :=
  C7_amended_status okCosApi okUrlApi ⟨some ("H.R. 3132: Example Act".data), none⟩
    ⟨none, some ⟨[], some ("We Support".data)⟩⟩ [] ⟨[], some ("We Support".data)⟩
    exampleRec rfl rfl

/-- Helper: `split_bill_id` succeeds only on inputs containing a space, so in
particular never on the empty string. -/
theorem split_bill_id_ok_ne_nil (s : PyStr) (p : PyStr × PyStr)
    (h : split_bill_id s = .ok p) : s ≠ [] := by
  intro hs
  subst hs
  simp [split_bill_id, pySplit] at h

/-- Helper: every record the loop body appends carries a raw bill number that
passed `split_bill_id`, hence a non-empty one. -/
theorem process_row_number_nonempty (capi : CosApi) (uapi : UrlApi) (r : Row)
    (b : BillData) (h : process_row capi uapi r = .ok (some b)) :
    b.bill_number ≠ [] := by
  obtain ⟨cells⟩ := r
  match cells with
  | [] => exact absurd h (by simp [process_row])
  | [c0] => exact absurd h (by simp [process_row])
  | c0 :: c1 :: rest =>
    obtain ⟨a0, s0⟩ := c0
    cases a0 with
    | none => exact absurd h (by simp [process_row])
    | some ft =>
      obtain ⟨a1, s1⟩ := c1
      cases s1 with
      | none => exact absurd h (by simp [process_row])
      | some sp =>
        simp only [process_row] at h
        rcases hbn : parse_number_title ft s0 with ⟨num, title⟩
        rw [hbn] at h
        cases hsp : split_bill_id num with
        | error e => rw [hsp] at h; simp at h
        | ok p =>
          obtain ⟨bt, bn⟩ := p
          rw [hsp] at h
          simp only at h
          cases hst : get_states_from_json (get_cosponsors capi bt bn) with
          | error e => rw [hst] at h; simp at h
          | ok states =>
            rw [hst] at h
            simp only at h
            cases hurl : legislation_url uapi bt bn with
            | error e => rw [hurl] at h; simp at h
            | ok url =>
              rw [hurl] at h
              simp only at h
              injection h with h1
              injection h1 with h2
              subst h2
              exact split_bill_id_ok_ne_nil num (bt, bn) hsp

/-- C8 counterexample: on a page whose single row has link text `H.R. 1:`
(nothing after the colon) and whose API calls all succeed, the record is
emitted and written with an empty title, refuting the claim that every
record present in the written output has a non-empty title. -/
theorem C8_counterexample_empty_title :
    write_output (scrape_rows okCosApi okUrlApi [emptyTitleRow]) =
      some [fieldnames,
        ["H.R. 1".data, [], "Support".data, "CA, TX".data,
          "https://example.test/bill/3132".data]] := rfl

/-- C8 amended: every record present in the output has a non-empty `number`
(its raw bill number passed `split_bill_id`, which requires a space); the
title, however, may be empty, as may the status, cosponsor states and URL
fields. -/
theorem C8_amended_number_nonempty (capi : CosApi) (uapi : UrlApi)
    (rows : List Row) (bills : List BillData)
    (h : scrape_rows capi uapi rows = some bills) :
    ∀ b ∈ bills, b.bill_number ≠ [] := by
  induction rows generalizing bills with
  | nil =>
    simp only [scrape_rows, Option.some.injEq] at h
    subst h
    simp
  | cons r rs ih =>
    simp only [scrape_rows] at h
    cases hp : process_row capi uapi r with
    | error e => rw [hp] at h; simp at h
    | ok ob =>
      rw [hp] at h
      cases ob with
      | none => exact ih bills h
      | some b0 =>
        simp only at h
        cases hs : scrape_rows capi uapi rs with
        | none => rw [hs] at h; simp at h
        | some tl =>
          rw [hs] at h
          simp only [Option.map_some', Option.some.injEq] at h
          subst h
          intro b hb
          rcases List.mem_cons.mp hb with rfl | hbtl
          · exact process_row_number_nonempty capi uapi r b hp
          · exact ih tl hs b hbtl

/-- Witness for the amended C8 at the fixture page: the emitted record's
number `H.R. 3132` is non-empty. -/
theorem C8_amended_number_nonempty_witness : exampleRec.bill_number ≠ [] :=
  C8_amended_number_nonempty okCosApi okUrlApi [exampleRow] [exampleRec] rfl
    exampleRec (List.mem_singleton.mpr rfl)

/-- C9 counterexample: when the parsed bill sequence is empty,
`if vfw_bills:` is false and nothing at all is written — not even the header
row the claim requires; any prior output file is left untouched. -/
theorem C9_counterexample_empty_run_writes_nothing :
    write_output (some []) = none ∧
    (none : Option (List (List PyStr))) ≠ some [fieldnames] :=
  ⟨rfl, by simp⟩

/-- C9 amended: only when the scraped bill list is non-empty does the run
persist its result, overwriting the output location with a header row
followed by one delimited record per bill in the fixed column order
`bill_number, bill_title, status, cosponsors, url`; an empty (or failed)
parse writes nothing. -/
theorem C9_amended_nonempty_written (bills : List BillData)
    (h : bills ≠ []) :
    write_output (some bills) = some (fieldnames :: bills.map csv_row) := by
  simp only [write_output]
  rw [if_neg (by simpa [List.isEmpty_iff] using h)]

/-- Witness for the amended C9 at a one-record list. -/
theorem C9_amended_nonempty_written_witness :
    write_output (some [exampleRec]) =
      some (fieldnames :: [exampleRec].map csv_row) :=
  C9_amended_nonempty_written [exampleRec] (by simp)

/-- C10: the module-level `DEBUG` flag changes console narration only: the
scrape result of the instrumented loop is the same function of the page rows
and API responses for `DEBUG = True` as for `DEBUG = False` (first and second
conjuncts, for any starting row index), and therefore the written output file
is also identical (third conjunct). -/
theorem C10_debug_flag_noninterference (capi : CosApi) (uapi : UrlApi)
    (rows : List Row) (i j : Nat) :
    (scrape_rows_log true capi uapi rows i).1 =
      (scrape_rows_log false capi uapi rows j).1 ∧
    (scrape_rows_log DEBUG capi uapi rows i).1 = scrape_rows capi uapi rows ∧
    write_output (scrape_rows_log true capi uapi rows i).1 =
      write_output (scrape_rows_log false capi uapi rows j).1 := by
  have h1 := scrape_rows_log_fst true capi uapi rows i
  have h2 := scrape_rows_log_fst false capi uapi rows j
  refine ⟨h1.trans h2.symm, scrape_rows_log_fst DEBUG capi uapi rows i, ?_⟩
  rw [h1, h2]
